import Mathlib

/-!
Verification of the AI-Tutor retrieval backend (`backend_python/`).

Shallow embedding of the core pipeline:
  * `services/document_chunker.py` — `DocumentChunker.chunk_text`
  * `services/query_handler.py`   — `QueryHandler.process_query`,
    `_get_relevant_context`, `_generate_mock_response`, `_add_to_history`,
    `get_conversation_history`, `process_query_streaming` and the two
    streaming generators
  * `main.py`                     — the WebSocket per-message wrapper

Python strings are modelled as `List Char`; Python float distances as `ℚ`
(the code only compares them against the literal `0.8`, never does float
arithmetic, so ordered-field comparison is the exact behaviour on the
decimal literals involved).  Wall-clock timestamps (`datetime.now()`)
are orthogonal to every property below and are omitted from the records.
External effects (the vector search and the OpenAI completion call) are
modelled by an environment record carrying each call's outcome, including
the possibility that the call raises.
-/

set_option maxRecDepth 20000

namespace AITutor

/-- Characters Python's `str.strip` / `str.split` treat as whitespace. -/
def pyIsSpace (c : Char) : Bool :=
  c = ' ' || c = '\t' || c = '\n' || c = '\r' || c = '\x0b' || c = '\x0c'

/-- Python `s.strip()`: drop whitespace from both ends. -/
def pyStrip (s : List Char) : List Char :=
  ((s.dropWhile pyIsSpace).reverse.dropWhile pyIsSpace).reverse

/-- Python `s[a:b]` for `0 ≤ a ≤ b` (as arising in the chunker). -/
def pySlice (s : List Char) (a b : Nat) : List Char :=
  (s.drop a).take (b - a)

/-- Python `s.rfind(ch, a, b)`: the largest index `i` with `a ≤ i < b`
and `s[i] = ch`, or `none` (Python returns `-1`; the chunker only ever
compares the result with `> start`, which `-1` never satisfies, so the
`none` case maps onto the not-found branch). -/
def pyRfind (s : List Char) (ch : Char) (a b : Nat) : Option Nat :=
  ((List.range s.length).filter
    (fun i => decide (a ≤ i ∧ i < b ∧ s.get? i = some ch))).getLast?

/-- Abbreviation turning a Lean string literal into the `List Char`
representation used throughout. -/
def str (s : String) : List Char := s.data

/-- One chunk produced by `DocumentChunker.chunk_text`
(`services/document_chunker.py`, the `chunk_data` dict).  The
`metadata.chunk_size` entry is the length of `text` and is represented
by `text` itself; wall-clock data does not occur here. -/
structure Chunk where
  text : List Char
  start_pos : Nat
  end_pos : Nat
  chunk_id : Nat
  source : List Char
  total_chunks : Nat
deriving DecidableEq, Repr

/-- The end position chosen for the chunk starting at `start`
(`document_chunker.py` lines 55–63): tentative `end = start + chunk_size`,
pulled back to one past the last sentence terminator strictly after
`start` found in the final 200-character window — only when the
tentative end lies inside the text. -/
def chunkEnd (cs : Nat) (text : List Char) (start : Nat) : Nat :=
  let end0 := start + cs
  if end0 < text.length then
    match pyRfind text '.' (max start (end0 - 200)) end0 with
    | some sentence_end =>
        if start < sentence_end then sentence_end + 1 else end0
    | none => end0
  else end0

/-- The `while start < len(text)` loop of `chunk_text`
(`document_chunker.py` lines 54–85), written with explicit fuel: `none`
means the fuel ran out before the loop exited.  Arguments `cs`/`ov` are
`self.chunk_size`/`self.chunk_overlap`; the literal `200` in the
sentence-boundary window is hard-coded in the source.  Under the default
configuration `cs = 1000`, `ov = 200` every quantity stays non-negative
(`chunkEnd ≥ start + 801` on every iteration), so `Nat` subtraction
agrees with Python's `int` subtraction.  The source's trailing
`if start >= len(text): break` coincides with the loop condition re-test
and is absorbed into it. -/
def chunkTextGo (cs ov : Nat) (text source : List Char) :
    Nat → Nat → Nat → Option (List Chunk)
  | 0, _, _ => none
  | fuel + 1, start, cid =>
    if start < text.length then
      let e := chunkEnd cs text start
      let ct := pyStrip (pySlice text start e)
      match chunkTextGo cs ov text source fuel (e - ov)
          (if ct.isEmpty then cid else cid + 1) with
      | none => none
      | some rest =>
          some (if ct.isEmpty then rest
                else { text := ct, start_pos := start, end_pos := e,
                       chunk_id := cid, source := source,
                       total_chunks := 0 } :: rest)
    else some []

/-- `DocumentChunker.chunk_text` (`document_chunker.py` lines 35–92):
empty-after-strip input yields `[]`; otherwise run the loop (fuel
`text.length + 1` is proved sufficient below) and back-patch
`total_chunks` on every chunk, as the final `for chunk in chunks` pass
does. -/
def chunk_text (cs ov : Nat) (text source : List Char) : List Chunk :=
  if (pyStrip text).isEmpty then []
  else
    match chunkTextGo cs ov text source (text.length + 1) 0 0 with
    | none => []
    | some chunks => chunks.map fun c => { c with total_chunks := chunks.length }


/-! ## Query handler: data model (`services/query_handler.py`, `services/vector_db.py`) -/

/-- One retrieved chunk as produced by `VectorDatabase.search_similar`
(`vector_db.py` lines 157–166): text, the `metadata['filename']` entry
when present, and the distance.  `distance` is an `Option` because
`QueryHandler._get_relevant_context` reads it defensively via
`chunk.get('distance', 1.0)`. -/
structure RetrievedContext where
  text : List Char
  filename : Option (List Char)
  distance : Option ℚ
deriving DecidableEq

/-- The relevance filter of `QueryHandler._get_relevant_context`
(`query_handler.py` lines 121–125): keep exactly the chunks with
`chunk.get('distance', 1.0) < 0.8`. -/
def filterRelevant (context_chunks : List RetrievedContext) : List RetrievedContext :=
  context_chunks.filter (fun chunk => decide (chunk.distance.getD 1 < (8 : ℚ) / 10))

/-- Outcomes of the two external calls a query can make: the vector
search (`self.vector_db.search_similar`) and the OpenAI completion call
(`self.openai_client.chat.completions.create`); `.error` models the call
raising.  `openaiClient` is whether `self.openai_client` is non-`None`
(an `OPENAI_API_KEY` was configured). -/
structure QueryEnv where
  searchResult : Except (List Char) (List RetrievedContext)
  openaiClient : Bool
  llmResult : Except (List Char) (List Char)

/-- `QueryHandler._get_relevant_context` (`query_handler.py` lines
107–132), as a function of the search call's outcome: on any search
exception, catch and return `[]`; otherwise filter the retrieved chunks
by relevance. -/
def _get_relevant_context
    (searchResult : Except (List Char) (List RetrievedContext)) :
    List RetrievedContext :=
  match searchResult with
  | .ok context_chunks => filterRelevant context_chunks
  | .error _ => []

/-- The `context_info` string of `_generate_mock_response`
(`query_handler.py` lines 215–218), keyed on the truthiness of
`context_chunks`. -/
def contextInfo (context_chunks : List RetrievedContext) : List Char :=
  if context_chunks.isEmpty then
    str "I don't have specific information about this topic in your uploaded materials."
  else
    str "I found " ++ (Nat.repr context_chunks.length).data ++
      str " relevant sections in your course materials that address this topic."

/-- The `mock_responses` template list (`query_handler.py` lines
220–225); each entry interpolates the query and the context info. -/
def mock_responses (query info : List Char) : List (List Char) :=
  [ str "Great question about '" ++ query ++ str "'! " ++ info ++
      str " Let me explain this concept based on what I know.",
    str "Excellent question! '" ++ query ++ str "' is an important topic. " ++ info ++
      str " Here's what I can tell you about it.",
    str "I'd be happy to help with '" ++ query ++ str "'. " ++ info ++
      str " This is a fundamental concept worth understanding.",
    str "Interesting question about '" ++ query ++ str "'! " ++ info ++
      str " Let me break this down for you." ]

/-- The `educational_additions` list (`query_handler.py` lines 232–237). -/
def educational_additions : List (List Char) :=
  [ str "\n\nThis concept is important because it forms the foundation for more advanced topics.",
    str "\n\nUnderstanding this will help you with related concepts in your studies.",
    str "\n\nThis topic often appears in exams and practical applications.",
    str "\n\nMastering this concept will make future learning much easier." ]

/-- `QueryHandler._generate_mock_response` (`query_handler.py` lines
213–240): template selected by `len(query) % len(mock_responses)`,
addition by `len(query) % len(educational_additions)`; both lists have
length 4. -/
def _generate_mock_response (query : List Char)
    (context_chunks : List RetrievedContext) : List Char :=
  (mock_responses query (contextInfo context_chunks)).getD (query.length % 4) [] ++
    educational_additions.getD (query.length % 4) []

/-- One entry of `self.conversation_history` (`query_handler.py`
`_add_to_history`, lines 244–249); the `timestamp` field is wall-clock
data and is omitted. -/
structure ConversationEntry where
  message : List Char
  role : List Char
  user_id : Option (List Char)
deriving DecidableEq

/-- `QueryHandler._add_to_history` (`query_handler.py` lines 242–255):
append, then keep only the last 20 entries (`history[-20:]`) when the
length exceeds 20. -/
def _add_to_history (message role : List Char) (user_id : Option (List Char))
    (history : List ConversationEntry) : List ConversationEntry :=
  let h := history ++ [{ message := message, role := role, user_id := user_id }]
  if 20 < h.length then h.drop (h.length - 20) else h

/-- Python truthiness of the optional `user_id` string argument:
`None` and `""` are falsy. -/
def pyTruthyId : Option (List Char) → Bool
  | none => false
  | some s => !s.isEmpty

/-- `QueryHandler.get_conversation_history` (`query_handler.py` lines
257–261): `if user_id:` filter by `entry.get('user_id') == user_id`,
else return the whole log. -/
def get_conversation_history (user_id : Option (List Char))
    (history : List ConversationEntry) : List ConversationEntry :=
  if pyTruthyId user_id then
    history.filter (fun entry => decide (entry.user_id = user_id))
  else history

/-- Tuple of `_add_to_history` arguments, for stating properties over
arbitrary sequences of appends. -/
def mkEntry (m : List Char × List Char × Option (List Char)) : ConversationEntry :=
  { message := m.1, role := m.2.1, user_id := m.2.2 }

/-- A sequence of `_add_to_history` calls starting from the `__init__`
state `[]`. -/
def runAppends (msgs : List (List Char × List Char × Option (List Char))) :
    List ConversationEntry :=
  msgs.foldl (fun h m => _add_to_history m.1 m.2.1 m.2.2 h) []

set_option linter.unusedVariables false in
/-- `QueryHandler._generate_llm_response` (`query_handler.py` lines
134–185): without a client, the mock response; with one, the provider's
content stripped, falling back to the mock response if the call raises.
The `conversation_history` argument only shapes the prompt handed to the
provider, whose reply `env.llmResult` already fixes, so it does not
appear on the right-hand sides. -/
def _generate_llm_response (env : QueryEnv) (query : List Char)
    (context_chunks : List RetrievedContext)
    (conversation_history : List ConversationEntry) : List Char :=
  if env.openaiClient = false then _generate_mock_response query context_chunks
  else
    match env.llmResult with
    | .ok content => pyStrip content
    | .error _ => _generate_mock_response query context_chunks

/-- The result dict of `QueryHandler.process_query` (`query_handler.py`
lines 86–105).  `context_chunks_used` is `Option` because the
error-branch dict omits that key; `timestamp` is omitted (wall clock). -/
structure QueryResult where
  response : List Char
  query : List Char
  user_id : Option (List Char)
  context_chunks_used : Option Nat
  error : Option (List Char)
  status : List Char
deriving DecidableEq

/-- The `try` body of `QueryHandler.process_query` (`query_handler.py`
lines 69–93), which also returns the updated history log.  None of the
four steps can raise: the two fallible sub-steps catch internally
(`_get_relevant_context` returns `[]`, `_generate_llm_response` falls
back to the mock), and list append cannot fail. -/
def process_query (env : QueryEnv) (query : List Char) (user_id : Option (List Char))
    (conversation_history : List ConversationEntry)
    (history : List ConversationEntry) : QueryResult × List ConversationEntry :=
  let h1 := _add_to_history query (str "user") user_id history
  let context_chunks := _get_relevant_context env.searchResult
  let response := _generate_llm_response env query context_chunks conversation_history
  let h2 := _add_to_history response (str "assistant") user_id h1
  ({ response := response, query := query, user_id := user_id,
     context_chunks_used := some context_chunks.length, error := none,
     status := str "success" }, h2)

/-- The `except` branch of `QueryHandler.process_query`
(`query_handler.py` lines 95–105), as a function of the exception text
`e` (`str(e)` in the source). -/
def process_query_onError (query : List Char) (user_id : Option (List Char))
    (e : List Char) : QueryResult :=
  { response := str "I apologize, but I encountered an error processing your query: " ++ e,
    query := query, user_id := user_id, context_chunks_used := none,
    error := some e, status := str "error" }

/-- The four retrieved contexts of the spec's worked relevance-filter
example, with distances 0.2, 0.79, 0.81, 1.0. -/
def sampleDistances : List RetrievedContext :=
  [⟨str "c1", none, some (2 / 10)⟩, ⟨str "c2", none, some (79 / 100)⟩,
   ⟨str "c3", none, some (81 / 100)⟩, ⟨str "c4", none, some 1⟩]


/-! ## Streaming pipeline (`query_handler.py` lines 273–496, `main.py` lines 274–301) -/

/-- Helper for Python `s.split()`: `acc` is the current word, reversed. -/
def pySplitAux : List Char → List Char → List (List Char)
  | [], acc => if acc.isEmpty then [] else [acc.reverse]
  | c :: cs, acc =>
    if pyIsSpace c then
      if acc.isEmpty then pySplitAux cs [] else acc.reverse :: pySplitAux cs []
    else pySplitAux cs (c :: acc)

/-- Python `s.split()` with no argument: split on whitespace runs,
producing no empty words. -/
def pySplit (s : List Char) : List (List Char) := pySplitAux s []

/-- Python `" ".join(ws)`. -/
def joinWords : List (List Char) → List Char
  | [] => []
  | [w] => w
  | w :: w2 :: ws => w ++ (' ' :: joinWords (w2 :: ws))

/-- The word groups visited by `for i in range(0, len(words), chunk_size)`
with `chunk_size = 3` (`query_handler.py` lines 460–464): successive
slices `words[i:i+3]`. -/
def chunksOf3 : List (List Char) → List (List (List Char))
  | [] => []
  | [w] => [[w]]
  | [w1, w2] => [[w1, w2]]
  | w1 :: w2 :: w3 :: rest => [w1, w2, w3] :: chunksOf3 rest

/-- One WebSocket notification, by its `type` tag; `chunk` carries its
`content` and `error` its `message` (the other messages' fixed text and
the wall-clock timestamps play no role in any claim).  `contextFound`
records the count interpolated into `"Found {n} relevant sections"`. -/
inductive StreamEvent where
  | processing
  | context
  | contextFound (count : Nat)
  | generating
  | chunk (content : List Char)
  | complete
  | error (message : List Char)
deriving DecidableEq, Repr

/-- Environment for one streamed query: the search outcome, whether
`self.openai_client` is set, the provider stream's `delta.content`
values (`none` models a null delta, which is skipped), and an optional
exception raised by the provider call/iteration after those deltas. -/
structure StreamEnv where
  searchResult : Except (List Char) (List RetrievedContext)
  openaiClient : Bool
  llmChunks : List (Option (List Char))
  llmStreamError : Option (List Char)

/-- `QueryHandler._generate_mock_streaming_response` (`query_handler.py`
lines 415–487): sends `generating`, then one `chunk` event per 3-word
group (each group joined with single spaces plus a trailing space), then
`complete`, and records the full mock answer as an assistant entry with
`user_id = None`.  Lines 424–449 rebuild the mock answer with exactly
the expressions of `_generate_mock_response`, so that definition is
reused here. -/
def _generate_mock_streaming_response (query : List Char)
    (context_chunks : List RetrievedContext) (history : List ConversationEntry) :
    List StreamEvent × List ConversationEntry :=
  let full_response := _generate_mock_response query context_chunks
  let words := pySplit full_response
  (StreamEvent.generating ::
      ((chunksOf3 words).map fun g => StreamEvent.chunk (joinWords g ++ [' '])) ++
      [StreamEvent.complete],
   _add_to_history full_response (str "assistant") none history)

/-- The `except` branch of `_generate_mock_streaming_response`
(`query_handler.py` lines 489–496), unreachable in this embedding since
the mock construction is total. -/
def mock_streaming_onError : List StreamEvent :=
  [StreamEvent.error (str "Sorry, I'm having trouble generating a response right now.")]

/-- `QueryHandler._generate_streaming_response` (`query_handler.py`
lines 331–413).  Without a client: the mock path.  With one: emit
`generating`, then a `chunk` event per non-null delta; if the provider
raises (`llmStreamError`), the `except` at lines 411–413 falls back to
the mock streaming path after the already-sent events; otherwise emit
`complete` and record the accumulated response with `user_id = None`. -/
def _generate_streaming_response (env : StreamEnv) (query : List Char)
    (context_chunks : List RetrievedContext) (history : List ConversationEntry) :
    List StreamEvent × List ConversationEntry :=
  if env.openaiClient = false then
    _generate_mock_streaming_response query context_chunks history
  else
    let contents := env.llmChunks.filterMap id
    let chunkEvents := contents.map StreamEvent.chunk
    match env.llmStreamError with
    | none =>
        (StreamEvent.generating :: chunkEvents ++ [StreamEvent.complete],
         _add_to_history (contents.foldl (· ++ ·) []) (str "assistant") none history)
    | some _ =>
        let mock := _generate_mock_streaming_response query context_chunks history
        (StreamEvent.generating :: chunkEvents ++ mock.1, mock.2)

/-- The `try` body of `QueryHandler.process_query_streaming`
(`query_handler.py` lines 289–318): record the user message, send
`context`, retrieve-and-filter (search exceptions are absorbed inside
`_get_relevant_context`), send `context_found` with the count, then
delegate to `_generate_streaming_response`. -/
def process_query_streaming (env : StreamEnv) (query : List Char)
    (user_id : Option (List Char)) (history : List ConversationEntry) :
    List StreamEvent × List ConversationEntry :=
  let h1 := _add_to_history query (str "user") user_id history
  let context_chunks := _get_relevant_context env.searchResult
  let gen := _generate_streaming_response env query context_chunks h1
  (StreamEvent.context :: StreamEvent.contextFound context_chunks.length :: gen.1,
   gen.2)

/-- The `except` branch of `process_query_streaming` (`query_handler.py`
lines 320–329): a single `error` notification with the apologetic
message, ending the stream. -/
def process_query_streaming_onError (e : List Char) : List StreamEvent :=
  [StreamEvent.error
    (str "I apologize, but I encountered an error processing your query: " ++ e)]

/-- One message iteration of the `/ws/chat` endpoint (`main.py` lines
279–298): send `processing`, then run `process_query_streaming`. -/
def websocket_receive (env : StreamEnv) (query : List Char)
    (user_id : Option (List Char)) (history : List ConversationEntry) :
    List StreamEvent × List ConversationEntry :=
  let r := process_query_streaming env query user_id history
  (StreamEvent.processing :: r.1, r.2)

/-- The `content` of a `chunk` event (other events carry none). -/
def chunkContent : StreamEvent → List Char
  | .chunk c => c
  | _ => []

/-- Concatenation of the `chunk` events' content, in order. -/
def concatChunkContents (events : List StreamEvent) : List Char :=
  (events.map chunkContent).foldr (· ++ ·) []

/-- Whether an event is an `error` notification. -/
def isErrorEvent : StreamEvent → Bool
  | .error _ => true
  | _ => false

/-! ## Chunker lemmas -/

theorem getLast?_mem {α : Type} {l : List α} {a : α} (h : l.getLast? = some a) :
    a ∈ l := by
  obtain ⟨hne, rfl⟩ := List.mem_getLast?_eq_getLast (Option.mem_def.mpr h)
  exact List.getLast_mem hne

theorem pyRfind_bounds {s : List Char} {ch : Char} {a b i : Nat}
    (h : pyRfind s ch a b = some i) : a ≤ i ∧ i < b := by
  have hmem := getLast?_mem h
  rw [List.mem_filter] at hmem
  have := of_decide_eq_true hmem.2
  exact ⟨this.1, this.2.1⟩

/-- Under the default configuration every iteration's end position lies
in `[start + 801, start + 1000]`: the sentence-boundary pull-back cannot
move the end below `start + 801` because the search window begins at
`end - 200`. -/
theorem chunkEnd_bounds (text : List Char) (start : Nat) :
    start + 801 ≤ chunkEnd 1000 text start ∧ chunkEnd 1000 text start ≤ start + 1000 := by
  unfold chunkEnd
  simp only
  split
  · split
    · next sentence_end heq =>
      have hb := pyRfind_bounds heq
      split
      · omega
      · omega
    · omega
  · omega

/-- One-step unfolding of the chunking loop. -/
theorem chunkTextGo_succ (cs ov : Nat) (text source : List Char)
    (fuel start cid : Nat) :
    chunkTextGo cs ov text source (fuel + 1) start cid =
      if start < text.length then
        match chunkTextGo cs ov text source fuel (chunkEnd cs text start - ov)
            (if (pyStrip (pySlice text start (chunkEnd cs text start))).isEmpty
             then cid else cid + 1) with
        | none => none
        | some rest =>
            some (if (pyStrip (pySlice text start (chunkEnd cs text start))).isEmpty
                  then rest
                  else { text := pyStrip (pySlice text start (chunkEnd cs text start)),
                         start_pos := start, end_pos := chunkEnd cs text start,
                         chunk_id := cid, source := source,
                         total_chunks := 0 } :: rest)
      else some [] := rfl

/-- Fuel adequacy: each iteration advances `start` by at least 601, so
`fuel` iterations suffice once `text.length ≤ start + 601 * fuel`. -/
theorem chunkTextGo_isSome (text source : List Char) :
    ∀ fuel start cid, text.length ≤ start + 601 * fuel →
      (chunkTextGo 1000 200 text source (fuel + 1) start cid).isSome := by
  intro fuel
  induction fuel with
  | zero =>
    intro start cid h
    rw [chunkTextGo_succ, if_neg (by omega)]
    simp
  | succ n ih =>
    intro start cid h
    rw [chunkTextGo_succ]
    by_cases hs : start < text.length
    · rw [if_pos hs]
      have hb := chunkEnd_bounds text start
      have hrec := ih (chunkEnd 1000 text start - 200)
        (if (pyStrip (pySlice text start (chunkEnd 1000 text start))).isEmpty then cid
         else cid + 1) (by omega)
      obtain ⟨rest, hrest⟩ := Option.isSome_iff_exists.mp hrec
      rw [hrest]
      simp
    · rw [if_neg hs]
      simp

/-- Every chunk the loop emits satisfies
`start_pos < end_pos`, `start_pos < text.length` and
`end_pos ≤ start_pos + chunk_size`. -/
theorem chunkTextGo_pos_invariant (text source : List Char) :
    ∀ fuel start cid l, chunkTextGo 1000 200 text source fuel start cid = some l →
      ∀ c ∈ l, c.start_pos < c.end_pos ∧ c.start_pos < text.length ∧
        c.end_pos ≤ c.start_pos + 1000 := by
  intro fuel
  induction fuel with
  | zero => intro start cid l h; simp [chunkTextGo] at h
  | succ n ih =>
    intro start cid l h
    rw [chunkTextGo_succ] at h
    by_cases hs : start < text.length
    · rw [if_pos hs] at h
      cases hrec : chunkTextGo 1000 200 text source n (chunkEnd 1000 text start - 200)
          (if (pyStrip (pySlice text start (chunkEnd 1000 text start))).isEmpty then cid
           else cid + 1) with
      | none => rw [hrec] at h; simp at h
      | some rest =>
        rw [hrec] at h
        have hb := chunkEnd_bounds text start
        simp only [Option.some.injEq] at h
        subst h
        intro c hc
        by_cases hct : (pyStrip (pySlice text start (chunkEnd 1000 text start))).isEmpty
        · rw [if_pos hct] at hc
          exact ih _ _ _ hrec c hc
        · rw [if_neg hct] at hc
          rcases List.mem_cons.mp hc with hceq | hcmem
          · subst hceq
            dsimp only
            exact ⟨by omega, hs, by omega⟩
          · exact ih _ _ _ hrec c hcmem
    · rw [if_neg hs] at h
      simp only [Option.some.injEq] at h
      subst h
      intro c hc
      simp at hc

/-! ## Claims C2, C3, C9 -/

/-- Claim C2 as stated is false: `chunk_text` on the 5-character text
`"hello"` (default parameters) emits a single chunk whose recorded
`end_pos` is the unclamped tentative end `1000 > 5 = len(text)`, because
the sentence-boundary clamp and Python's slice clamping never write back
into `end` when `start + chunk_size` overshoots the text. -/
theorem claim_C2_counterexample :
    ¬ (∀ c ∈ chunk_text 1000 200 (str "hello") (str "doc"),
        c.end_pos ≤ (str "hello").length) := by decide

/-- Claim C2 (amended): every chunk emitted by `chunk_text` under the
default configuration satisfies `0 ≤ start_pos < end_pos`,
`start_pos < len(text)` and `end_pos ≤ start_pos + chunk_size`;
`end_pos` may exceed `len(text)` whenever the tentative
`start + chunk_size` overshoots the text and no sentence boundary pulls
it back — for non-final chunks as well (on 900 characters the first of
the two emitted chunks already records `end_pos = 1000`); the slice
itself is clamped by Python, so only `start_pos + chunk_size` bounds
`end_pos`. -/
theorem claim_C2_position_invariant (text source : List Char) :
    ∀ c ∈ chunk_text 1000 200 text source,
      c.start_pos < c.end_pos ∧ c.start_pos < text.length ∧
        c.end_pos ≤ c.start_pos + 1000 := by
  intro c hc
  unfold chunk_text at hc
  by_cases h0 : (pyStrip text).isEmpty
  · rw [if_pos h0] at hc; simp at hc
  · rw [if_neg h0] at hc
    cases hgo : chunkTextGo 1000 200 text source (text.length + 1) 0 0 with
    | none => rw [hgo] at hc; simp at hc
    | some chunks =>
      rw [hgo] at hc
      simp only [List.mem_map] at hc
      obtain ⟨c0, hc0, rfl⟩ := hc
      have := chunkTextGo_pos_invariant text source _ _ _ _ hgo c0 hc0
      simpa using this

/-- Witness for Claim C2's amended theorem at the concrete text
`"hello"`. -/
theorem claim_C2_witness :
    (⟨str "hello", 0, 1000, 0, str "doc", 1⟩ : Chunk) ∈
        chunk_text 1000 200 (str "hello") (str "doc") ∧
      ((0 : Nat) < 1000 ∧ 0 < (str "hello").length ∧ 1000 ≤ 0 + 1000) :=
  ⟨by decide,
   claim_C2_position_invariant (str "hello") (str "doc")
     ⟨str "hello", 0, 1000, 0, str "doc", 1⟩ (by decide)⟩

/-- Claim C3 as stated is false: 900 non-whitespace characters form a
text shorter than `chunk_size = 1000` with non-empty trim, yet
`chunk_text` returns two chunks — after the first chunk the cursor
restarts at `end - overlap = 800 < 900`, so a second (tail) chunk is
emitted. -/
theorem claim_C3_counterexample :
    (pyStrip (List.replicate 900 'a')).isEmpty = false ∧
      (List.replicate 900 'a').length < 1000 ∧
      (chunk_text 1000 200 (List.replicate 900 'a') (str "doc")).length ≠ 1 := by
  refine ⟨by decide, by decide, by decide⟩

/-- Claim C3 (amended): for every text whose trim is non-empty and with
`len(text) ≤ chunk_size - overlap` (800 under the defaults, rather than
`len(text) < chunk_size`), `chunk_text` returns exactly one chunk whose
text is the input after trimming (with recorded span `[0, 1000)`). -/
theorem claim_C3_single_chunk (text source : List Char)
    (hne : (pyStrip text).isEmpty = false) (hlen : text.length ≤ 800) :
    chunk_text 1000 200 text source =
      [{ text := pyStrip text, start_pos := 0, end_pos := 1000,
         chunk_id := 0, source := source, total_chunks := 1 }] := by
  have hpos : 0 < text.length := by
    rcases Nat.eq_zero_or_pos text.length with h | h
    · exfalso
      rw [List.length_eq_zero.mp h] at hne
      simp [pyStrip] at hne
    · exact h
  have hce : chunkEnd 1000 text 0 = 1000 := by
    unfold chunkEnd
    dsimp only
    rw [if_neg (by omega)]
  have hslice : pySlice text 0 1000 = text := by
    unfold pySlice
    rw [List.drop_zero]
    exact List.take_of_length_le (by omega)
  have hrec : chunkTextGo 1000 200 text source text.length (1000 - 200)
      (if (pyStrip text).isEmpty = true then 0 else 0 + 1) = some [] := by
    obtain ⟨m, hm⟩ : ∃ m, text.length = m + 1 := ⟨text.length - 1, by omega⟩
    rw [hm, chunkTextGo_succ, if_neg (by omega)]
  have hgo : chunkTextGo 1000 200 text source (text.length + 1) 0 0 =
      some [{ text := pyStrip text, start_pos := 0, end_pos := 1000,
              chunk_id := 0, source := source, total_chunks := 0 }] := by
    rw [chunkTextGo_succ, if_pos hpos, hce, hslice, hrec]
    simp [hne]
  unfold chunk_text
  rw [if_neg (by simp [hne]), hgo]
  rfl

/-- Witness for Claim C3's amended theorem at the concrete text
`"hi"`. -/
theorem claim_C3_witness :
    (pyStrip (str "hi")).isEmpty = false ∧ (str "hi").length ≤ 800 ∧
      chunk_text 1000 200 (str "hi") (str "doc") =
        [{ text := pyStrip (str "hi"), start_pos := 0, end_pos := 1000,
           chunk_id := 0, source := str "doc", total_chunks := 1 }] :=
  ⟨by decide, by decide,
   claim_C3_single_chunk (str "hi") (str "doc") (by decide) (by decide)⟩

/-- Claim C9: under the default configuration (`chunk_size = 1000`,
`overlap = 200`) the chunking loop terminates on every input —
`text.length + 1` iterations always reach the `start ≥ len(text)` exit
(each iteration advances the cursor by at least 601). -/
theorem claim_C9_chunk_text_terminates (text source : List Char) :
    ∃ chunks, chunkTextGo 1000 200 text source (text.length + 1) 0 0 = some chunks :=
  Option.isSome_iff_exists.mp
    (chunkTextGo_isSome text source text.length 0 0 (by omega))

/-! ## History lemmas -/

/-- A run of appends starting from any log of at most 20 entries keeps
exactly the newest 20 of the concatenated stream: `_add_to_history`
always trims from the front (the oldest end). -/
theorem foldl_add_to_history (msgs : List (List Char × List Char × Option (List Char))) :
    ∀ h : List ConversationEntry, h.length ≤ 20 →
      msgs.foldl (fun h m => _add_to_history m.1 m.2.1 m.2.2 h) h =
        (h ++ msgs.map mkEntry).drop ((h.length + msgs.length) - 20) := by
  induction msgs with
  | nil =>
    intro h hh
    simp [Nat.sub_eq_zero_of_le hh]
  | cons m msgs ih =>
    intro h hh
    have hstep : _add_to_history m.1 m.2.1 m.2.2 h =
        (h ++ [mkEntry m]).drop ((h.length + 1) - 20) := by
      unfold _add_to_history mkEntry
      dsimp only
      split
      · next hc =>
        congr 1
        simp
      · next hc =>
        simp only [List.length_append, List.length_singleton] at hc
        have h0 : h.length + 1 - 20 = 0 := by omega
        simp only [List.length_append, List.length_singleton, h0, List.drop_zero]
    rw [List.foldl_cons, hstep, ih _ (by simp [List.length_drop]; omega)]
    rw [List.length_drop, List.length_append]
    simp only [List.length_cons, List.length_nil, List.map_cons, List.length_map]
    rw [← List.drop_append_of_le_length (by simp; omega), List.drop_drop]
    have hidx : h.length + 1 - 20 + (h.length + (0 + 1) - (h.length + 1 - 20) + msgs.length - 20) =
        h.length + (msgs.length + 1) - 20 := by omega
    rw [hidx, List.append_assoc]
    simp

/-! ## Claims C1, C4, C7, C8 -/

/-- Claim C1: for every environment (search and provider outcomes),
query, user id and caller-supplied history, `process_query` returns a
well-formed `QueryResult` — the `try` body always succeeds with
`status = 'success'` and `context_chunks_used` equal to the number of
retrieved chunks that passed the relevance filter, and for any internal
exception `e` the `except` branch yields the apologetic error string
with `status = 'error'`.  (Being a total Lean function, the embedded
`process_query` cannot raise.) -/
theorem claim_C1_process_query_total (env : QueryEnv) (query : List Char)
    (user_id : Option (List Char)) (conversation_history : List ConversationEntry)
    (history : List ConversationEntry) :
    ((process_query env query user_id conversation_history history).1.status =
        str "success" ∧
      (process_query env query user_id conversation_history history).1.context_chunks_used =
        some (filterRelevant
          (match env.searchResult with | .ok l => l | .error _ => [])).length) ∧
    ∀ e, (process_query_onError query user_id e).status = str "error" ∧
      (process_query_onError query user_id e).response =
        str "I apologize, but I encountered an error processing your query: " ++ e := by
  refine ⟨⟨rfl, ?_⟩, fun e => ⟨rfl, rfl⟩⟩
  unfold process_query _get_relevant_context
  cases env.searchResult <;> rfl

/-- Claim C4: the relevance filter keeps exactly the retrieved contexts
whose (defaulted) distance is strictly below the 0.8 cutoff, and on the
spec's worked example with distances 0.2, 0.79, 0.81, 1.0 exactly the
first two survive. -/
theorem claim_C4_relevance_filter :
    (∀ (l : List RetrievedContext) (c : RetrievedContext),
      c ∈ filterRelevant l ↔ c ∈ l ∧ c.distance.getD 1 < (8 : ℚ) / 10) ∧
    filterRelevant sampleDistances = sampleDistances.take 2 := by
  constructor
  · intro l c
    unfold filterRelevant
    rw [List.mem_filter]
    simp
  · unfold sampleDistances filterRelevant
    simp only [List.filter_cons, List.filter_nil, Option.getD_some, List.take]
    norm_num

/-- Claim C7: after any sequence of appends starting from the empty
log, the conversation history holds at most 20 entries, and it equals
the appended stream with precisely its oldest `n - 20` entries dropped —
eviction always removes the oldest entry by insertion order,
independently of any entry's `user_id`. -/
theorem claim_C7_history_bounded (msgs : List (List Char × List Char × Option (List Char))) :
    (runAppends msgs).length ≤ 20 ∧
      runAppends msgs = (msgs.map mkEntry).drop (msgs.length - 20) := by
  have h := foldl_add_to_history msgs [] (by simp)
  simp only [List.nil_append, List.length_nil, Nat.zero_add] at h
  unfold runAppends
  refine ⟨?_, h⟩
  rw [h, List.length_drop, List.length_map]
  omega

/-- Claim C8 as stated is false: the equal-length distinct queries
`"ab"` and `"cd"` receive different answers from the mock generator,
because every template interpolates the query text itself into the
answer. -/
theorem claim_C8_counterexample :
    (str "ab").length = (str "cd").length ∧ str "ab" ≠ str "cd" ∧
      _generate_mock_response (str "ab") [] ≠ _generate_mock_response (str "cd") [] := by
  refine ⟨by decide, by decide, by decide⟩

/-- Claim C8 (amended): the mock generator selects its templates purely
by query length — two queries of equal length, with the same retrieved
context, receive the same templated answer up to the interpolated query
text: there are common `A`, `B` with each answer equal to
`A ++ query ++ B`.  (The full answers therefore coincide only when the
queries do.) -/
theorem claim_C8_template_by_length (q1 q2 : List Char) (ctx : List RetrievedContext)
    (hlen : q1.length = q2.length) :
    ∃ A B, _generate_mock_response q1 ctx = A ++ (q1 ++ B) ∧
           _generate_mock_response q2 ctx = A ++ (q2 ++ B) := by
  have h4 : q1.length % 4 = 0 ∨ q1.length % 4 = 1 ∨ q1.length % 4 = 2 ∨
      q1.length % 4 = 3 := by omega
  unfold _generate_mock_response mock_responses
  rw [← hlen]
  rcases h4 with h | h | h | h <;> rw [h] <;>
    simp only [List.getD_cons_zero, List.getD_cons_succ]
  · exact ⟨str "Great question about '",
      str "'! " ++ contextInfo ctx ++
        str " Let me explain this concept based on what I know." ++
        educational_additions.getD 0 [],
      by simp [List.append_assoc], by simp [List.append_assoc]⟩
  · exact ⟨str "Excellent question! '",
      str "' is an important topic. " ++ contextInfo ctx ++
        str " Here's what I can tell you about it." ++
        educational_additions.getD 1 [],
      by simp [List.append_assoc], by simp [List.append_assoc]⟩
  · exact ⟨str "I'd be happy to help with '",
      str "'. " ++ contextInfo ctx ++
        str " This is a fundamental concept worth understanding." ++
        educational_additions.getD 2 [],
      by simp [List.append_assoc], by simp [List.append_assoc]⟩
  · exact ⟨str "Interesting question about '",
      str "'! " ++ contextInfo ctx ++
        str " Let me break this down for you." ++
        educational_additions.getD 3 [],
      by simp [List.append_assoc], by simp [List.append_assoc]⟩

/-- Witness for Claim C8's amended theorem at the equal-length queries
`"ab"` and `"cd"` with empty context. -/
theorem claim_C8_witness :
    (str "ab").length = (str "cd").length ∧
      ∃ A B, _generate_mock_response (str "ab") [] = A ++ (str "ab" ++ B) ∧
             _generate_mock_response (str "cd") [] = A ++ (str "cd" ++ B) :=
  ⟨by decide, claim_C8_template_by_length (str "ab") (str "cd") [] (by decide)⟩

/-! ## Streaming lemmas -/

theorem pySplitAux_ne_nil (l : List Char) :
    ∀ acc : List Char, acc ≠ [] → pySplitAux l acc ≠ [] := by
  induction l with
  | nil =>
    intro acc hacc
    simp [pySplitAux, hacc]
  | cons c cs ih =>
    intro acc hacc
    unfold pySplitAux
    by_cases hsp : pyIsSpace c = true
    · rw [if_pos hsp, if_neg (by simpa using hacc)]
      simp
    · rw [if_neg hsp]
      exact ih (c :: acc) (by simp)

theorem pySplit_cons_ne_nil (c : Char) (s : List Char) (h : pyIsSpace c = false) :
    pySplit (c :: s) ≠ [] := by
  unfold pySplit pySplitAux
  rw [if_neg (by simp [h])]
  exact pySplitAux_ne_nil s [c] (by simp)

/-- Every mock answer starts with a non-whitespace character (each of
the four templates opens with a letter), whatever the query. -/
theorem mock_response_head (query : List Char) (ctx : List RetrievedContext) :
    ∃ c t, _generate_mock_response query ctx = c :: t ∧ pyIsSpace c = false := by
  have h4 : query.length % 4 = 0 ∨ query.length % 4 = 1 ∨ query.length % 4 = 2 ∨
      query.length % 4 = 3 := by omega
  unfold _generate_mock_response mock_responses
  rcases h4 with h | h | h | h <;> rw [h] <;>
    simp only [List.getD_cons_zero, List.getD_cons_succ] <;>
    exact ⟨_, _, rfl, by decide⟩

theorem mock_words_ne_nil (query : List Char) (ctx : List RetrievedContext) :
    pySplit (_generate_mock_response query ctx) ≠ [] := by
  obtain ⟨c, t, heq, hns⟩ := mock_response_head query ctx
  rw [heq]
  exact pySplit_cons_ne_nil c t hns

theorem chunksOf3_ne_nil (w : List Char) (ws : List (List Char)) :
    chunksOf3 (w :: ws) ≠ [] := by
  rcases ws with _ | ⟨w2, ws⟩
  · simp [chunksOf3]
  · rcases ws with _ | ⟨w3, ws⟩
    · simp [chunksOf3]
    · simp [chunksOf3]

/-- Concatenating the per-group `" ".join(group) + " "` strings over the
3-word groups yields the single-space join of all words plus a trailing
space. -/
theorem chunksOf3_concat : ∀ ws : List (List Char), ws ≠ [] →
    ((chunksOf3 ws).map fun g => joinWords g ++ [' ']).foldr (· ++ ·) [] =
      joinWords ws ++ [' ']
  | [], h => absurd rfl h
  | [w], _ => by
    simp [chunksOf3, joinWords]
  | [w1, w2], _ => by
    simp [chunksOf3, joinWords, List.append_assoc]
  | [w1, w2, w3], _ => by
    simp [chunksOf3, joinWords, List.append_assoc]
  | w1 :: w2 :: w3 :: w4 :: rest, _ => by
    have ih := chunksOf3_concat (w4 :: rest) (by simp)
    simp only [chunksOf3, List.map_cons, List.foldr_cons]
    rw [ih]
    simp [joinWords, List.append_assoc]

theorem concatChunkContents_map_chunk (xs : List (List (List Char)))
    (f : List (List Char) → List Char) :
    concatChunkContents (xs.map fun g => StreamEvent.chunk (f g)) =
      (xs.map f).foldr (· ++ ·) [] := by
  unfold concatChunkContents
  rw [List.map_map]
  have hcomp : chunkContent ∘ (fun g => StreamEvent.chunk (f g)) = f :=
    funext fun g => rfl
  rw [hcomp]

/-! ## Claims C5, C6, C10 -/

/-- Claim C5 as stated is false at the spec's own example: for the
query `"What is gradient descent?"` with no provider and empty corpus,
the concatenated `chunk` contents differ from the mock answer — the
word-group re-join replaces the answer's `"\n\n"` with a single space
and appends a trailing space. -/
theorem claim_C5_counterexample :
    concatChunkContents
        (websocket_receive ⟨.ok [], false, [], none⟩ (str "What is gradient descent?")
          (some (str "websocket_user")) []).1 ≠
      _generate_mock_response (str "What is gradient descent?") [] := by decide

/-- Claim C5 (amended): with the provider absent and no exception, a
streamed query emits, in order, `processing`, `context`,
`context_found`, `generating`, one or more `chunk` events and then
`complete` — never `error` — and the concatenation of the `chunk`
contents equals the mock answer with each whitespace run collapsed to a
single space and a trailing space appended
(`" ".join(answer.split()) + " "`), rather than the mock answer
verbatim. -/
theorem claim_C5_streaming_nominal (query : List Char) (user_id : Option (List Char))
    (history : List ConversationEntry) (retrieved : List RetrievedContext) :
    ∃ chunkEvents,
      chunkEvents ≠ [] ∧
      (∀ ev ∈ chunkEvents, ∃ c, ev = StreamEvent.chunk c) ∧
      (websocket_receive ⟨.ok retrieved, false, [], none⟩ query user_id history).1 =
        [StreamEvent.processing, StreamEvent.context,
         StreamEvent.contextFound (filterRelevant retrieved).length,
         StreamEvent.generating] ++ chunkEvents ++ [StreamEvent.complete] ∧
      (∀ m, StreamEvent.error m ∉
        (websocket_receive ⟨.ok retrieved, false, [], none⟩ query user_id history).1) ∧
      concatChunkContents chunkEvents =
        joinWords (pySplit (_generate_mock_response query (filterRelevant retrieved))) ++
          [' '] := by
  refine ⟨(chunksOf3 (pySplit (_generate_mock_response query
      (filterRelevant retrieved)))).map
      (fun g => StreamEvent.chunk (joinWords g ++ [' '])), ?_, ?_, ?_, ?_, ?_⟩
  · intro hmap
    have hnil := List.map_eq_nil_iff.mp hmap
    have hw := mock_words_ne_nil query (filterRelevant retrieved)
    rcases hws : pySplit (_generate_mock_response query (filterRelevant retrieved)) with
      _ | ⟨w, ws⟩
    · exact hw hws
    · rw [hws] at hnil
      exact chunksOf3_ne_nil w ws hnil
  · intro ev hev
    rw [List.mem_map] at hev
    obtain ⟨g, _, rfl⟩ := hev
    exact ⟨_, rfl⟩
  · simp [websocket_receive, process_query_streaming, _generate_streaming_response,
      _generate_mock_streaming_response, _get_relevant_context]
  · intro m
    simp [websocket_receive, process_query_streaming, _generate_streaming_response,
      _generate_mock_streaming_response, _get_relevant_context]
  · rw [concatChunkContents_map_chunk]
    exact chunksOf3_concat _ (mock_words_ne_nil query (filterRelevant retrieved))

/-- Claim C6 as stated is false: when the provider stream raises
(`"boom"`) the pipeline emits no `error` notification at all — the
`except` at `query_handler.py` lines 411–413 falls back to the mock
generator and the stream still ends with `complete`. -/
theorem claim_C6_counterexample :
    ((process_query_streaming ⟨.ok [], true, [], some (str "boom")⟩ (str "q") none
        []).1.countP isErrorEvent = 0) ∧
      StreamEvent.complete ∈
        (process_query_streaming ⟨.ok [], true, [], some (str "boom")⟩ (str "q") none
          []).1 := by
  refine ⟨by decide, by decide⟩

/-- Claim C6 (amended): only an exception that escapes to
`process_query_streaming`'s outer handler produces the single `error`
notification that terminates the stream; an exception raised by the
real provider's streaming call instead triggers a mock-generation
fallback — the stream then contains no `error` event and still ends
with `complete`. -/
theorem claim_C6_error_handling (e query : List Char) (user_id : Option (List Char))
    (history : List ConversationEntry) (retrieved : List RetrievedContext)
    (deltas : List (Option (List Char))) :
    (process_query_streaming_onError e =
      [StreamEvent.error
        (str "I apologize, but I encountered an error processing your query: " ++ e)]) ∧
    (∀ m, StreamEvent.error m ∉
      (process_query_streaming ⟨.ok retrieved, true, deltas, some e⟩ query user_id
        history).1) ∧
    ((process_query_streaming ⟨.ok retrieved, true, deltas, some e⟩ query user_id
        history).1.getLast? = some StreamEvent.complete) := by
  refine ⟨rfl, ?_, ?_⟩
  · intro m
    simp [process_query_streaming, _generate_streaming_response,
      _generate_mock_streaming_response, _get_relevant_context, List.mem_append,
      List.mem_map]
  · have hev : (process_query_streaming ⟨.ok retrieved, true, deltas, some e⟩ query
        user_id history).1 =
      (StreamEvent.context ::
        StreamEvent.contextFound (filterRelevant retrieved).length ::
        StreamEvent.generating :: ((deltas.filterMap id).map StreamEvent.chunk) ++
        (StreamEvent.generating ::
          ((chunksOf3 (pySplit (_generate_mock_response query
            (filterRelevant retrieved)))).map
            fun g => StreamEvent.chunk (joinWords g ++ [' '])))) ++
        [StreamEvent.complete] := by
      simp [process_query_streaming, _generate_streaming_response,
        _generate_mock_streaming_response, _get_relevant_context, List.append_assoc]
    rw [hev, List.getLast?_concat]

/-- Claim C10 as stated is false for the non-`None` user id `""`:
Python's `if user_id:` treats the empty string as falsy, so
`get_conversation_history("")` returns the whole log — including the
streamed assistant answer stored with `user_id = None`. -/
theorem claim_C10_counterexample :
    (some ([] : List Char)) ≠ (none : Option (List Char)) ∧
      ({ message := _generate_mock_response (str "hi") [], role := str "assistant",
         user_id := none } : ConversationEntry) ∈
        get_conversation_history (some [])
          (process_query_streaming ⟨.ok [], false, [], none⟩ (str "hi")
            (some (str "alice")) []).2 := by
  refine ⟨by decide, by decide⟩

/-- Claim C10 (amended): every streaming path that records an assistant
answer — the mock path (no client), the real-provider success path, and
the provider-error fallback into the mock generator (`query_handler.py`
lines 411–413 into line 487) — stores it with `user_id = None`, and for
every non-`None`, **non-empty** user id `u`,
`get_conversation_history(u)` returns only entries tagged with `u`
itself — hence never contains a streamed assistant answer. -/
theorem claim_C10_history_user_id (env : StreamEnv) (query : List Char)
    (user_id : Option (List Char)) (history : List ConversationEntry)
    (u : List Char) :
    (env.openaiClient = false →
      (process_query_streaming env query user_id history).2 =
        _add_to_history
          (_generate_mock_response query (_get_relevant_context env.searchResult))
          (str "assistant") none
          (_add_to_history query (str "user") user_id history)) ∧
    (env.openaiClient = true → env.llmStreamError = none →
      (process_query_streaming env query user_id history).2 =
        _add_to_history ((env.llmChunks.filterMap id).foldl (· ++ ·) [])
          (str "assistant") none
          (_add_to_history query (str "user") user_id history)) ∧
    (∀ err, env.openaiClient = true → env.llmStreamError = some err →
      (process_query_streaming env query user_id history).2 =
        _add_to_history
          (_generate_mock_response query (_get_relevant_context env.searchResult))
          (str "assistant") none
          (_add_to_history query (str "user") user_id history)) ∧
    (u ≠ [] → ∀ entry ∈ get_conversation_history (some u) history,
      entry.user_id = some u) := by
  obtain ⟨sr, oc, lc, le⟩ := env
  refine ⟨?_, ?_, ?_, ?_⟩
  · intro hoc
    simp only at hoc
    subst hoc
    rfl
  · intro hoc hle
    simp only at hoc hle
    subst hoc
    subst hle
    rfl
  · intro err hoc hle
    simp only at hoc hle
    subst hoc
    subst hle
    rfl
  · intro hu entry hent
    unfold get_conversation_history at hent
    rw [if_pos (by simp [pyTruthyId, hu])] at hent
    rw [List.mem_filter] at hent
    exact of_decide_eq_true hent.2

/-- Witness for Claim C10's amended theorem: a mock streaming run and a
provider-error fallback run for user `"alice"` over a one-entry log,
and the filtered view for the non-empty user id `"u"`. -/
theorem claim_C10_witness :
    ((process_query_streaming ⟨.ok [], false, [], none⟩ (str "hi") (some (str "alice"))
        [⟨str "m", str "user", some (str "u")⟩]).2 =
      _add_to_history (_generate_mock_response (str "hi") (_get_relevant_context (.ok [])))
        (str "assistant") none
        (_add_to_history (str "hi") (str "user") (some (str "alice"))
          [⟨str "m", str "user", some (str "u")⟩])) ∧
    ((process_query_streaming ⟨.ok [], true, [], some (str "boom")⟩ (str "hi")
        (some (str "alice")) [⟨str "m", str "user", some (str "u")⟩]).2 =
      _add_to_history (_generate_mock_response (str "hi") (_get_relevant_context (.ok [])))
        (str "assistant") none
        (_add_to_history (str "hi") (str "user") (some (str "alice"))
          [⟨str "m", str "user", some (str "u")⟩])) ∧
    (∀ entry ∈ get_conversation_history (some (str "u"))
        [⟨str "m", str "user", some (str "u")⟩],
      entry.user_id = some (str "u")) :=
  ⟨(claim_C10_history_user_id ⟨.ok [], false, [], none⟩ (str "hi") (some (str "alice"))
      [⟨str "m", str "user", some (str "u")⟩] (str "u")).1 rfl,
   (claim_C10_history_user_id ⟨.ok [], true, [], some (str "boom")⟩ (str "hi")
      (some (str "alice")) [⟨str "m", str "user", some (str "u")⟩] (str "u")).2.2.1
     (str "boom") rfl rfl,
   (claim_C10_history_user_id ⟨.ok [], false, [], none⟩ (str "hi") (some (str "alice"))
      [⟨str "m", str "user", some (str "u")⟩] (str "u")).2.2.2 (by decide)⟩

end AITutor
